import Mathlib

/-!
Shallow embedding of the entitlement & session engine of
`src/app.py` (Flask + SQLAlchemy), covering: the data model
(`User`, `Subscription`, `PaymentHistory`, `LinkRequest`), the tier /
quota helpers (`Subscription.is_active`, `has_active_subscription`,
`get_user_subscriptions`, `is_trial_active`, `get_link_request_limit`,
`get_monthly_link_request_count`, `can_make_link_request`), and the
entitlement-mutating request handlers (`payment_success`,
`api_subscription_cancel`, `free_trial`, `register`,
`admin_revenue_approve`, `login`, `check_session_token`).

Timestamps: Python `datetime` values form a totally ordered timeline and
`timedelta(days := k)` arithmetic is exact addition of `k * 86400 * 10^6`
microseconds on that timeline, so wherever the source only compares
datetimes and adds timedeltas we embed a datetime as a natural number of
microseconds (`Time`).  The single calendar-aware operation in scope,
`now.replace(day=1, hour=0, minute=0, second=0, microsecond=0)` in
`get_monthly_link_request_count`, needs the calendar fields, so link
request timestamps are embedded as a `DateTime` record with the Python
field-lexicographic order.

Database tables are embedded as lists of records; SQLAlchemy
`filter_by(...).first()` is `List.find?`, `.all()` is `List.filter`,
`.count()` is `(List.filter _).length`, and an ORM in-place mutation of
the row returned by `first()` is `updateFirst`.
-/

namespace Moneying

/-- One microsecond tick of the Python `datetime` timeline. -/
abbrev Time := Nat

/-- Microseconds in one day: `timedelta(days=1)`. -/
def dayMicros : Nat := 86400000000

/-- `timedelta(days=k)` as microseconds. -/
def days (k : Nat) : Nat := k * dayMicros

/-- The `User` model (src/app.py lines 255-296), restricted to the columns
the entitlement & session engine reads or writes. -/
structure User where
  id : Nat
  email : String
  pw_hash : String
  free_trial_used : Bool
  free_trial_expires : Option Time
  referral_code : Option String
  referred_by : Option Nat
  login_fail_count : Nat
  locked_until : Option Time
  is_seller : Bool
  session_token : Option String
  is_staff : Bool
deriving Repr, DecidableEq

/-- The `Subscription` model (src/app.py lines 447-461).  `plan_type` and
`status` are string-typed in the source and stay strings here. -/
structure Subscription where
  id : Nat
  user_id : Nat
  plan_type : String
  status : String
  price : Nat
  started_at : Time
  expires_at : Option Time
deriving Repr, DecidableEq

/-- The `PaymentHistory` model (src/app.py lines 471-482).  The table has a
UNIQUE constraint on `order_id`. -/
structure PaymentHistory where
  id : Nat
  user_id : Nat
  subscription_id : Option Nat
  order_id : String
  payment_key : String
  amount : Nat
  plan_type : String
  status : String
  paid_at : Option Time
deriving Repr, DecidableEq

/-- Replace the first element satisfying `p` by its image under `f`,
leaving everything else unchanged: the effect of mutating, through the
ORM, the single row returned by `query.filter_by(...).first()`. -/
def updateFirst {α : Type} (p : α → Bool) (f : α → α) : List α → List α
  | [] => []
  | a :: rest => if p a then f a :: rest else a :: updateFirst p f rest

/-- `Subscription.is_active` (src/app.py lines 463-468): status must be
`"active"`, and a `None` expiry means non-expiring. -/
def Subscription.is_active (s : Subscription) (now : Time) : Bool :=
  if s.status ≠ "active" then false
  else
    match s.expires_at with
    | none => true
    | some e => now < e

/-- `has_active_subscription` (src/app.py lines 724-728):
`filter_by(user_id, plan_type, status="active").first()`, then
`sub.is_active()` on the row found. -/
def has_active_subscription (subs : List Subscription) (uid : Nat)
    (plan : String) (now : Time) : Bool :=
  match subs.find? (fun s =>
      s.user_id == uid && s.plan_type == plan && s.status == "active") with
  | none => false
  | some s => s.is_active now

/-- `get_user_subscriptions` (src/app.py lines 730-734): all
status-"active" rows of the user that are also unexpired. -/
def get_user_subscriptions (subs : List Subscription) (uid : Nat)
    (now : Time) : List Subscription :=
  (subs.filter (fun s => s.user_id == uid && s.status == "active")).filter
    (fun s => s.is_active now)

/-- `is_trial_active` (src/app.py lines 749-755). -/
def is_trial_active (users : List User) (uid : Nat) (now : Time) : Bool :=
  match users.find? (fun u => u.id == uid) with
  | none => false
  | some u =>
    match u.free_trial_expires with
    | none => false
    | some e => now < e

/-- Monthly link-request ceiling constants (src/app.py lines 127-130). -/
def LINK_REQUEST_LIMIT_FREE : Nat := 1

/-- Trial-tier monthly link-request ceiling (src/app.py line 128). -/
def LINK_REQUEST_LIMIT_TRIAL : Nat := 3

/-- Subscriber-tier monthly link-request ceiling (src/app.py line 129). -/
def LINK_REQUEST_LIMIT_SUBSCRIBER : Nat := 10

/-- All-in-one-tier monthly link-request ceiling (src/app.py line 130). -/
def LINK_REQUEST_LIMIT_ALLINONE : Nat := 20

/-- `get_link_request_limit` (src/app.py lines 804-818): a first-match
chain over the plans, in the source's order `allinone`, `gallery`,
`profitguard_lifetime`, `profitguard_pro`/`profitguard_lite`, then trial,
then free. -/
def get_link_request_limit (users : List User) (subs : List Subscription)
    (uid : Nat) (now : Time) : Nat :=
  if has_active_subscription subs uid "allinone" now then
    LINK_REQUEST_LIMIT_ALLINONE
  else if has_active_subscription subs uid "gallery" now then
    LINK_REQUEST_LIMIT_SUBSCRIBER
  else if has_active_subscription subs uid "profitguard_lifetime" now then
    LINK_REQUEST_LIMIT_ALLINONE
  else if has_active_subscription subs uid "profitguard_pro" now
      || has_active_subscription subs uid "profitguard_lite" now then
    LINK_REQUEST_LIMIT_SUBSCRIBER
  else if is_trial_active users uid now then
    LINK_REQUEST_LIMIT_TRIAL
  else
    LINK_REQUEST_LIMIT_FREE

/-- One entry of the `PLAN_INFO` table (src/app.py lines 1086-1092). -/
structure PlanInfo where
  name : String
  price : Nat
  billing : Bool
deriving Repr, DecidableEq

/-- The `PLAN_INFO` dict (src/app.py lines 1086-1092): `dict.get` on the
plan-type key. -/
def PLAN_INFO (planType : String) : Option PlanInfo :=
  if planType == "gallery" then some ⟨"영상 갤러리", 39000, true⟩
  else if planType == "allinone" then some ⟨"올인원 패키지", 59000, true⟩
  else if planType == "profitguard_lite" then
    some ⟨"프로핏가드 라이트", 19000, true⟩
  else if planType == "profitguard_pro" then
    some ⟨"프로핏가드 PRO", 39000, true⟩
  else if planType == "profitguard_lifetime" then
    some ⟨"프로핏가드 평생", 200000, false⟩
  else none

/-- The database state touched by `payment_success`: the subscription and
payment-history tables. -/
structure PayState where
  subscriptions : List Subscription
  payments : List PaymentHistory
deriving Repr, DecidableEq

/-- Outcomes of `payment_success`, one per exit of the route
(src/app.py lines 1114-1305). -/
inductive PayResult
  | authMissing
  | invalidPlan
  | amountMismatch
  | gatewayRejected
  | duplicateOrderId
  | success
deriving Repr, DecidableEq

/-- `payment_success` (src/app.py lines 1114-1305), the payment
confirmation callback.  Guards in source order: presence of session user,
`paymentKey`, `orderId` and `amount` (line 1131); plan lookup (1139);
`int(amount) != plan['price']` (1149); the external Toss `/confirm` call
(1165-1197), whose verdict is an input here (`gatewayOk`) since the
gateway is outside the engine.  The mutation (lines 1209-1259): one new
`Subscription` row (`expires_at = None` for a non-billing plan, else
`now + 30 days`) and one new `PaymentHistory` row keyed by `order_id`,
inserted under a single `db.session.commit()`.  The source has no
application-level replay check: idempotency rests on the UNIQUE
constraint of `PaymentHistory.order_id` (src/app.py line 476), which
makes that commit fail on a replayed `order_id` and roll back both
pending inserts, leaving the state untouched — embedded here as the
`duplicateOrderId` branch.  The follow-up commit setting
`payment.subscription_id` (lines 1257-1259) is folded into the created
row. -/
def payment_success (st : PayState) (sessionUser : Option Nat)
    (paymentKey orderId : String) (amount : Option Nat) (planType : String)
    (gatewayOk : Bool) (now : Time) (nextSubId nextPayId : Nat) :
    PayResult × PayState :=
  match sessionUser, amount with
  | none, _ => (.authMissing, st)
  | some _, none => (.authMissing, st)
  | some uid, some amt =>
    if paymentKey == "" || orderId == "" then (.authMissing, st)
    else
      match PLAN_INFO planType with
      | none => (.invalidPlan, st)
      | some plan =>
        if amt ≠ plan.price then (.amountMismatch, st)
        else if !gatewayOk then (.gatewayRejected, st)
        else if st.payments.any (fun p => p.order_id == orderId) then
          (.duplicateOrderId, st)
        else
          (.success,
            { subscriptions := st.subscriptions ++
                [{ id := nextSubId, user_id := uid, plan_type := planType,
                   status := "active", price := plan.price, started_at := now,
                   expires_at :=
                     if !plan.billing then none
                     else some (now + days 30) }],
              payments := st.payments ++
                [{ id := nextPayId, user_id := uid,
                   subscription_id := some nextSubId, order_id := orderId,
                   payment_key := paymentKey, amount := plan.price,
                   plan_type := planType, status := "paid",
                   paid_at := some now }] })

/-- Outcomes of `api_subscription_cancel`, one per `return jsonify(...)`
site of the route (src/app.py lines 1356-1386). -/
inductive CancelResult
  | notLoggedIn
  | missingSubscriptionId
  | notFound
  | notCancellable
  | success
deriving Repr, DecidableEq

/-- `api_subscription_cancel` (src/app.py lines 1356-1386).  The row is
looked up with `filter_by(id=sub_id, user_id=session["user_id"])`; a
lifetime plan is rejected by `plan_type == "profitguard_lifetime"`; on
success only `status` is mutated (then committed).  Every early `return`
leaves the table as it was, so the handler returns the result together
with the resulting table. -/
def api_subscription_cancel (subs : List Subscription)
    (sessionUser : Option Nat) (subId : Option Nat) :
    CancelResult × List Subscription :=
  match sessionUser with
  | none => (.notLoggedIn, subs)
  | some uid =>
    match subId with
    | none => (.missingSubscriptionId, subs)
    | some sid =>
      match subs.find? (fun s => s.id == sid && s.user_id == uid) with
      | none => (.notFound, subs)
      | some s =>
        if s.plan_type == "profitguard_lifetime" then
          (.notCancellable, subs)
        else
          (.success,
            updateFirst (fun t => t.id == sid && t.user_id == uid)
              (fun t => { t with status := "cancelled" }) subs)

end Moneying

namespace Moneying

theorem updateFirst_map_eq {α β : Type} (p : α → Bool) (f : α → α)
    (g : α → β) (hg : ∀ a, g (f a) = g a) :
    ∀ l : List α, (updateFirst p f l).map g = l.map g := by
  intro l
  induction l with
  | nil => rfl
  | cons a rest ih =>
    by_cases h : p a
    · simp [updateFirst, h, hg]
    · simp [updateFirst, h, ih]

theorem find?_updateFirst {α : Type} (p : α → Bool) (f : α → α)
    (hpf : ∀ a, p a = true → p (f a) = true) :
    ∀ l : List α, (updateFirst p f l).find? p = (l.find? p).map f := by
  intro l
  induction l with
  | nil => rfl
  | cons a rest ih =>
    by_cases h : p a
    · simp [updateFirst, h, List.find?, hpf a h]
    · simp [updateFirst, h, List.find?, ih]

theorem updateFirst_length {α : Type} (p : α → Bool) (f : α → α) :
    ∀ l : List α, (updateFirst p f l).length = l.length := by
  intro l
  induction l with
  | nil => rfl
  | cons a rest ih =>
    by_cases h : p a
    · simp [updateFirst, h]
    · simp [updateFirst, h, ih]

/-- Unfolding of `api_subscription_cancel` in the not-found branch. -/
theorem api_subscription_cancel_eq_notFound
    (subs : List Subscription) (uid sid : Nat)
    (hfind : subs.find? (fun t => t.id == sid && t.user_id == uid) = none) :
    api_subscription_cancel subs (some uid) (some sid) =
      (CancelResult.notFound, subs) := by
  simp only [api_subscription_cancel]
  rw [hfind]

/-- Unfolding of `api_subscription_cancel` in the lifetime-plan branch. -/
theorem api_subscription_cancel_eq_notCancellable
    (subs : List Subscription) (uid sid : Nat) (s : Subscription)
    (hfind : subs.find? (fun t => t.id == sid && t.user_id == uid) = some s)
    (hl : s.plan_type = "profitguard_lifetime") :
    api_subscription_cancel subs (some uid) (some sid) =
      (CancelResult.notCancellable, subs) := by
  simp only [api_subscription_cancel]
  rw [hfind]
  simp [hl]

/-- Unfolding of `api_subscription_cancel` in the success branch. -/
theorem api_subscription_cancel_eq_success
    (subs : List Subscription) (uid sid : Nat) (s : Subscription)
    (hfind : subs.find? (fun t => t.id == sid && t.user_id == uid) = some s)
    (hl : s.plan_type ≠ "profitguard_lifetime") :
    api_subscription_cancel subs (some uid) (some sid) =
      (CancelResult.success,
        updateFirst (fun t => t.id == sid && t.user_id == uid)
          (fun t => { t with status := "cancelled" }) subs) := by
  simp only [api_subscription_cancel]
  rw [hfind]
  simp [hl]

/-- C7: on any table satisfying the creation invariant "a null
`expires_at` only occurs on `profitguard_lifetime` rows" (every creation
site — `payment_success` line 1221, `admin_subscription_add` line 3541,
the 14-day event grants lines 4745/4867 — sets `expires_at` to `None`
exactly for `profitguard_lifetime`), cancelling a subscription whose
`expires_at` is null is rejected as not-cancellable with the whole table
unchanged, and any successful cancel marks the targeted row `"cancelled"`
while leaving every row's `expires_at` exactly as it was. -/
theorem cancel_lifetime_rejected_and_cancel_preserves_expiry
    (subs : List Subscription) (uid sid : Nat) (s : Subscription)
    (hinv : ∀ t ∈ subs, t.expires_at = none →
      t.plan_type = "profitguard_lifetime")
    (hfind : subs.find? (fun t => t.id == sid && t.user_id == uid) = some s) :
    (s.expires_at = none →
      api_subscription_cancel subs (some uid) (some sid) =
        (CancelResult.notCancellable, subs)) ∧
    (∀ subs2 : List Subscription,
      api_subscription_cancel subs (some uid) (some sid) =
        (CancelResult.success, subs2) →
      subs2.map (fun t => t.expires_at) = subs.map (fun t => t.expires_at) ∧
      subs2.find? (fun t => t.id == sid && t.user_id == uid) =
        some { s with status := "cancelled" }) := by
  have hmem : s ∈ subs := List.mem_of_find?_eq_some hfind
  constructor
  · intro hnone
    exact api_subscription_cancel_eq_notCancellable subs uid sid s hfind
      (hinv s hmem hnone)
  · intro subs2 hsucc
    by_cases hl : s.plan_type = "profitguard_lifetime"
    · rw [api_subscription_cancel_eq_notCancellable subs uid sid s hfind hl]
        at hsucc
      exact absurd hsucc (by simp)
    · rw [api_subscription_cancel_eq_success subs uid sid s hfind hl] at hsucc
      have h2 := (Prod.mk.injEq _ _ _ _).mp hsucc
      rw [← h2.2]
      constructor
      · exact updateFirst_map_eq (fun t => t.id == sid && t.user_id == uid)
          (fun t => { t with status := "cancelled" })
          (fun t => t.expires_at) (fun a => rfl) subs
      · rw [find?_updateFirst (fun t => t.id == sid && t.user_id == uid)
          (fun t => { t with status := "cancelled" }) (fun a ha => ha) subs,
          hfind]
        rfl

/-- Witness for C7 at a concrete table: a lifetime row (null expiry) is
rejected, and cancelling an ordinary gallery row succeeds, flips its
status, and moves no expiry date. -/
theorem cancel_lifetime_rejected_witness :
    (∀ t ∈ [Subscription.mk 1 7 "profitguard_lifetime" "active" 200000 0 none,
            Subscription.mk 2 7 "gallery" "active" 39000 0 (some 100)],
        t.expires_at = none → t.plan_type = "profitguard_lifetime") ∧
    ([Subscription.mk 1 7 "profitguard_lifetime" "active" 200000 0 none,
      Subscription.mk 2 7 "gallery" "active" 39000 0 (some 100)].find?
        (fun t => t.id == 1 && t.user_id == 7) =
      some (Subscription.mk 1 7 "profitguard_lifetime" "active" 200000 0 none)) ∧
    api_subscription_cancel
      [Subscription.mk 1 7 "profitguard_lifetime" "active" 200000 0 none,
       Subscription.mk 2 7 "gallery" "active" 39000 0 (some 100)]
      (some 7) (some 1) =
      (CancelResult.notCancellable,
       [Subscription.mk 1 7 "profitguard_lifetime" "active" 200000 0 none,
        Subscription.mk 2 7 "gallery" "active" 39000 0 (some 100)]) := by
  refine ⟨?_, ?_, ?_⟩
  · decide
  · decide
  · exact (cancel_lifetime_rejected_and_cancel_preserves_expiry
      [Subscription.mk 1 7 "profitguard_lifetime" "active" 200000 0 none,
       Subscription.mk 2 7 "gallery" "active" 39000 0 (some 100)]
      7 1 (Subscription.mk 1 7 "profitguard_lifetime" "active" 200000 0 none)
      (by decide) (by decide)).1 rfl

/-- C10: the cancellation endpoint only ever touches a row owned by the
logged-in caller: if no row has both the requested id and the caller as
owner (the row does not exist, or belongs to someone else), the call
fails with not-found and returns the table exactly as it was. -/
theorem cancel_foreign_subscription_untouched
    (subs : List Subscription) (uid sid : Nat)
    (hno : ∀ t ∈ subs, t.id = sid → t.user_id ≠ uid) :
    api_subscription_cancel subs (some uid) (some sid) =
      (CancelResult.notFound, subs) := by
  have hfind : subs.find? (fun t => t.id == sid && t.user_id == uid) = none := by
    rw [List.find?_eq_none]
    intro t ht
    have := hno t ht
    simp only [Bool.and_eq_true, beq_iff_eq]
    rintro ⟨h1, h2⟩
    exact this h1 h2
  exact api_subscription_cancel_eq_notFound subs uid sid hfind

/-- Witness for C10: account 9 asks to cancel subscription 2, which is
owned by account 7; the call fails and the table is returned unchanged. -/
theorem cancel_foreign_subscription_untouched_witness :
    api_subscription_cancel
      [Subscription.mk 2 7 "gallery" "active" 39000 0 (some 100)]
      (some 9) (some 2) =
      (CancelResult.notFound,
       [Subscription.mk 2 7 "gallery" "active" 39000 0 (some 100)]) :=
  cancel_foreign_subscription_untouched
    [Subscription.mk 2 7 "gallery" "active" 39000 0 (some 100)] 9 2
    (by decide)

/-- The row pair appended by a successful `payment_success`. -/
def purchasedRows (uid : Nat) (pk oid : String) (pt : String)
    (plan : PlanInfo) (now : Time) (nsid npid : Nat) :
    Subscription × PaymentHistory :=
  ({ id := nsid, user_id := uid, plan_type := pt, status := "active",
     price := plan.price, started_at := now,
     expires_at := if !plan.billing then none else some (now + days 30) },
   { id := npid, user_id := uid, subscription_id := some nsid,
     order_id := oid, payment_key := pk, amount := plan.price,
     plan_type := pt, status := "paid", paid_at := some now })

/-- Unfolding of `payment_success` on the success path. -/
theorem payment_success_eq_success
    (st : PayState) (uid : Nat) (pk oid : String) (amt : Nat) (pt : String)
    (now : Time) (nsid npid : Nat) (plan : PlanInfo)
    (hplan : PLAN_INFO pt = some plan)
    (hpk : pk ≠ "") (hoid : oid ≠ "") (hamt : amt = plan.price)
    (hfresh : ∀ p ∈ st.payments, p.order_id ≠ oid) :
    payment_success st (some uid) pk oid (some amt) pt true now nsid npid =
      (PayResult.success,
        { subscriptions := st.subscriptions ++
            [(purchasedRows uid pk oid pt plan now nsid npid).1],
          payments := st.payments ++
            [(purchasedRows uid pk oid pt plan now nsid npid).2] }) := by
  have h1 : (pk == "" || oid == "") = false := by simp [hpk, hoid]
  have h2 : st.payments.any (fun p => p.order_id == oid) = false := by
    rw [List.any_eq_false]
    intro p hp
    simp [hfresh p hp]
  simp only [payment_success, hplan, h1, h2]
  simp [hamt, purchasedRows]

/-- Unfolding of `payment_success` on the replayed-order branch: the
UNIQUE constraint on `order_id` aborts the commit and the transaction
rolls back, so the state comes back untouched. -/
theorem payment_success_eq_duplicate
    (st : PayState) (uid : Nat) (pk oid : String) (amt : Nat) (pt : String)
    (now : Time) (nsid npid : Nat) (plan : PlanInfo)
    (hplan : PLAN_INFO pt = some plan)
    (hpk : pk ≠ "") (hoid : oid ≠ "") (hamt : amt = plan.price)
    (hdup : st.payments.any (fun p => p.order_id == oid) = true) :
    payment_success st (some uid) pk oid (some amt) pt true now nsid npid =
      (PayResult.duplicateOrderId, st) := by
  have h1 : (pk == "" || oid == "") = false := by simp [hpk, hoid]
  simp only [payment_success, hplan, h1, hdup]
  simp [hamt]

/-- C1: confirming a purchase twice with the same external payment
reference (`order_id`) creates exactly one `Subscription` row and exactly
one `PaymentHistory` row for that reference: the first call succeeds and
appends one row to each table; the second call with the same `order_id`
fails on the unique-key commit with the first call's rows intact (the
state after the failed second call is exactly the state after the first
call). -/
theorem confirm_purchase_idempotent
    (st : PayState) (uid : Nat) (pk oid : String) (amt : Nat) (pt : String)
    (now now2 : Time) (nsid npid nsid2 npid2 : Nat) (plan : PlanInfo)
    (hplan : PLAN_INFO pt = some plan)
    (hpk : pk ≠ "") (hoid : oid ≠ "") (hamt : amt = plan.price)
    (hfresh : ∀ p ∈ st.payments, p.order_id ≠ oid) :
    ∀ r1 : PayResult, ∀ st1 : PayState,
      payment_success st (some uid) pk oid (some amt) pt true now nsid npid =
        (r1, st1) →
      r1 = PayResult.success ∧
      (st1.payments.filter (fun p => p.order_id == oid)).length = 1 ∧
      st1.subscriptions.length = st.subscriptions.length + 1 ∧
      payment_success st1 (some uid) pk oid (some amt) pt true now2
        nsid2 npid2 = (PayResult.duplicateOrderId, st1) := by
  intro r1 st1 hcall
  rw [payment_success_eq_success st uid pk oid amt pt now nsid npid plan
    hplan hpk hoid hamt hfresh] at hcall
  injection hcall with h1 h2
  subst h1
  subst h2
  refine ⟨rfl, ?_, ?_, ?_⟩
  · rw [List.filter_append]
    have hnil : st.payments.filter (fun p => p.order_id == oid) = [] := by
      rw [List.filter_eq_nil_iff]
      intro p hp
      simp [hfresh p hp]
    rw [hnil]
    simp [purchasedRows]
  · simp
  · apply payment_success_eq_duplicate _ uid pk oid amt pt now2 nsid2 npid2
      plan hplan hpk hoid hamt
    simp [purchasedRows]

/-- Witness for C1 at concrete input: an empty store, account 7 buying
the gallery plan with order id `"ord_1"` at 39000 won; the replay of the
callback fails as a duplicate and returns the first call's state. -/
theorem confirm_purchase_idempotent_witness :
    (payment_success ⟨[], []⟩ (some 7) "payKey" "ord_1" (some 39000)
      "gallery" true 0 11 21).1 = PayResult.success ∧
    payment_success
      (payment_success ⟨[], []⟩ (some 7) "payKey" "ord_1" (some 39000)
        "gallery" true 0 11 21).2
      (some 7) "payKey" "ord_1" (some 39000) "gallery" true 99 12 22 =
      (PayResult.duplicateOrderId,
       (payment_success ⟨[], []⟩ (some 7) "payKey" "ord_1" (some 39000)
         "gallery" true 0 11 21).2) := by
  have h := confirm_purchase_idempotent ⟨[], []⟩ 7 "payKey" "ord_1" 39000
    "gallery" 0 99 11 21 12 22 ⟨"영상 갤러리", 39000, true⟩ rfl
    (by decide) (by decide) rfl (by simp)
    (payment_success ⟨[], []⟩ (some 7) "payKey" "ord_1" (some 39000)
      "gallery" true 0 11 21).1
    (payment_success ⟨[], []⟩ (some 7) "payKey" "ord_1" (some 39000)
      "gallery" true 0 11 21).2 rfl
  exact ⟨h.1, h.2.2.2⟩

end Moneying

namespace Moneying

/-- Outcomes of the `free_trial` route, one per exit
(src/app.py lines 2226-2260). -/
inductive TrialResult
  | redirectLogin
  | alreadyUsed
  | hasSubscriptionHistory
  | alreadySubscribed
  | started
  | renderForm
deriving Repr, DecidableEq

/-- The `free_trial` route (src/app.py lines 2226-2260).  Guard order as
in the source: logged-in session, user row exists, `free_trial_used`
(AlreadyUsed), any `Subscription` row regardless of status
(HasSubscriptionHistory, the cancel-then-retrial guard at lines
2240-2244), any currently effective subscription, and finally the POST
branch, which sets `free_trial_used = True` and
`free_trial_expires = now + 5 days` on the user row. -/
def free_trial (users : List User) (subs : List Subscription)
    (sessionUser : Option Nat) (isPost : Bool) (now : Time) :
    TrialResult × List User :=
  match sessionUser with
  | none => (.redirectLogin, users)
  | some uid =>
    match users.find? (fun u => u.id == uid) with
    | none => (.redirectLogin, users)
    | some user =>
      if user.free_trial_used then (.alreadyUsed, users)
      else if subs.filter (fun s => s.user_id == user.id) ≠ [] then
        (.hasSubscriptionHistory, users)
      else if get_user_subscriptions subs user.id now ≠ [] then
        (.alreadySubscribed, users)
      else if isPost then
        (.started,
          updateFirst (fun u => u.id == uid)
            (fun u => { u with free_trial_used := true,
                               free_trial_expires := some (now + days 5) })
            users)
      else (.renderForm, users)

/-- Unfolding of `free_trial` when the trial was already consumed. -/
theorem free_trial_eq_alreadyUsed
    (users : List User) (subs : List Subscription) (uid : Nat)
    (isPost : Bool) (now : Time) (u : User)
    (hfind : users.find? (fun v => v.id == uid) = some u)
    (hused : u.free_trial_used = true) :
    free_trial users subs (some uid) isPost now =
      (TrialResult.alreadyUsed, users) := by
  simp only [free_trial]
  rw [hfind]
  simp [hused]

/-- Unfolding of `free_trial` when some subscription row (of any status)
exists for the account. -/
theorem free_trial_eq_history
    (users : List User) (subs : List Subscription) (uid : Nat)
    (isPost : Bool) (now : Time) (u : User) (s : Subscription)
    (hfind : users.find? (fun v => v.id == uid) = some u)
    (hused : u.free_trial_used = false)
    (hs : s ∈ subs) (hsu : s.user_id = u.id) :
    free_trial users subs (some uid) isPost now =
      (TrialResult.hasSubscriptionHistory, users) := by
  have hne : subs.filter (fun t => t.user_id == u.id) ≠ [] :=
    List.ne_nil_of_mem (List.mem_filter.mpr ⟨hs, by simp [hsu]⟩)
  simp only [free_trial]
  rw [hfind]
  simp [hused, hne]

/-- Unfolding of `free_trial` on the activation path. -/
theorem free_trial_eq_started
    (users : List User) (subs : List Subscription) (uid : Nat) (now : Time)
    (u : User)
    (hfind : users.find? (fun v => v.id == uid) = some u)
    (hused : u.free_trial_used = false)
    (hnosub : ∀ s ∈ subs, s.user_id ≠ u.id) :
    free_trial users subs (some uid) true now =
      (TrialResult.started,
        updateFirst (fun v => v.id == uid)
          (fun v => { v with free_trial_used := true,
                             free_trial_expires := some (now + days 5) })
          users) := by
  have h1 : subs.filter (fun t => t.user_id == u.id) = [] := by
    rw [List.filter_eq_nil_iff]
    intro t ht
    simp [hnosub t ht]
  have h2 : get_user_subscriptions subs u.id now = [] := by
    unfold get_user_subscriptions
    rw [List.filter_eq_nil_iff]
    intro t ht
    have := (List.mem_filter.mp ht).2
    simp only [Bool.and_eq_true, beq_iff_eq] at this
    exact absurd this.1 (hnosub t (List.mem_filter.mp ht).1)
  simp only [free_trial]
  rw [hfind]
  simp [hused, h1, h2]

/-- C8: trial activation is one-way and blocked by any subscription
history.  Part one: for an account with no trial consumed and no
subscription row at all, activation succeeds once, and the immediately
retried activation fails with AlreadyUsed, leaving the user table as the
first call left it.  Part two: for an account that has any subscription
row — of any status, cancelled included — activation is refused as
subscription history with the user table unchanged. -/
theorem trial_once_and_history_blocks :
    (∀ (users : List User) (subs : List Subscription) (uid : Nat)
       (now now2 : Time) (u : User),
      users.find? (fun v => v.id == uid) = some u →
      u.free_trial_used = false →
      (∀ s ∈ subs, s.user_id ≠ u.id) →
      ∀ (r1 : TrialResult) (users1 : List User),
        free_trial users subs (some uid) true now = (r1, users1) →
        r1 = TrialResult.started ∧
        free_trial users1 subs (some uid) true now2 =
          (TrialResult.alreadyUsed, users1)) ∧
    (∀ (users : List User) (subs : List Subscription) (uid : Nat)
       (isPost : Bool) (now : Time) (u : User) (s : Subscription),
      users.find? (fun v => v.id == uid) = some u →
      u.free_trial_used = false →
      s ∈ subs → s.user_id = u.id →
      free_trial users subs (some uid) isPost now =
        (TrialResult.hasSubscriptionHistory, users)) := by
  constructor
  · intro users subs uid now now2 u hfind hused hnosub r1 users1 hcall
    rw [free_trial_eq_started users subs uid now u hfind hused hnosub]
      at hcall
    injection hcall with h1 h2
    subst h1
    subst h2
    refine ⟨rfl, ?_⟩
    have hfind2 : (updateFirst (fun v => v.id == uid)
        (fun v => { v with free_trial_used := true,
                           free_trial_expires := some (now + days 5) })
        users).find? (fun v => v.id == uid) =
        some { u with free_trial_used := true,
                      free_trial_expires := some (now + days 5) } := by
      rw [find?_updateFirst (fun v => v.id == uid)
        (fun v => { v with free_trial_used := true,
                           free_trial_expires := some (now + days 5) })
        (fun a ha => ha) users, hfind]
      rfl
    exact free_trial_eq_alreadyUsed _ subs uid true now2 _ hfind2 rfl
  · intro users subs uid isPost now u s hfind hused hs hsu
    exact free_trial_eq_history users subs uid isPost now u s hfind hused
      hs hsu

/-- Witness for C8: account 7 with a clean history activates the trial
once and is refused on retry; account 8, holding one cancelled gallery
subscription, is refused outright as subscription history. -/
theorem trial_once_and_history_blocks_witness :
    free_trial
      (free_trial [User.mk 7 "a@b.c" "h" false none none none 0 none
        false none false] [] (some 7) true 0).2
      [] (some 7) true 5 =
      (TrialResult.alreadyUsed,
       (free_trial [User.mk 7 "a@b.c" "h" false none none none 0 none
         false none false] [] (some 7) true 0).2) ∧
    free_trial [User.mk 8 "d@e.f" "h" false none none none 0 none
        false none false]
      [Subscription.mk 3 8 "gallery" "cancelled" 39000 0 (some 10)]
      (some 8) true 0 =
      (TrialResult.hasSubscriptionHistory,
       [User.mk 8 "d@e.f" "h" false none none none 0 none
        false none false]) := by
  constructor
  · exact (trial_once_and_history_blocks.1
      [User.mk 7 "a@b.c" "h" false none none none 0 none false none false]
      [] 7 0 5
      (User.mk 7 "a@b.c" "h" false none none none 0 none false none false)
      (by decide) rfl (by simp)
      (free_trial [User.mk 7 "a@b.c" "h" false none none none 0 none
        false none false] [] (some 7) true 0).1
      (free_trial [User.mk 7 "a@b.c" "h" false none none none 0 none
        false none false] [] (some 7) true 0).2 rfl).2
  · exact trial_once_and_history_blocks.2
      [User.mk 8 "d@e.f" "h" false none none none 0 none false none false]
      [Subscription.mk 3 8 "gallery" "cancelled" 39000 0 (some 10)]
      8 true 0
      (User.mk 8 "d@e.f" "h" false none none none 0 none false none false)
      (Subscription.mk 3 8 "gallery" "cancelled" 39000 0 (some 10))
      (by decide) rfl (by decide) rfl

end Moneying

namespace Moneying

/-- Modelled from the spec: the per-plan link-request ceiling, reading
the bracket table of §4.1 — the all-inclusive set (`allinone`,
`profitguard_lifetime`) gets the all-in-one ceiling, the remaining paid
plans the subscriber ceiling.  Used only to state what the spec demands
of the resolver, for comparison against `get_link_request_limit`. -/
def specPlanCeiling (plan : String) : Nat :=
  if plan == "allinone" || plan == "profitguard_lifetime" then
    LINK_REQUEST_LIMIT_ALLINONE
  else if plan == "gallery" || plan == "profitguard_pro"
      || plan == "profitguard_lite" then
    LINK_REQUEST_LIMIT_SUBSCRIBER
  else 0

/-- Modelled from the spec: "the maximum ceiling among the effective
subscriptions applies". -/
def specMaxCeiling (subs : List Subscription) (uid : Nat) (now : Time) :
    Nat :=
  ((get_user_subscriptions subs uid now).map
    (fun s => specPlanCeiling s.plan_type)).foldr Nat.max 0

/-- Counterexample to C4 as stated: account 1 holds an effective
`gallery` subscription and an effective `profitguard_lifetime`
subscription; `get_link_request_limit` checks `gallery` before
`profitguard_lifetime` (src/app.py lines 804-818) and returns the
subscriber ceiling 10, not the maximum 20 of the per-plan ceilings. -/
theorem link_limit_not_max_counterexample :
    get_link_request_limit []
      [Subscription.mk 1 1 "gallery" "active" 39000 0 (some 100),
       Subscription.mk 2 1 "profitguard_lifetime" "active" 200000 0 none]
      1 0 = LINK_REQUEST_LIMIT_SUBSCRIBER ∧
    specMaxCeiling
      [Subscription.mk 1 1 "gallery" "active" 39000 0 (some 100),
       Subscription.mk 2 1 "profitguard_lifetime" "active" 200000 0 none]
      1 0 = LINK_REQUEST_LIMIT_ALLINONE ∧
    get_link_request_limit []
      [Subscription.mk 1 1 "gallery" "active" 39000 0 (some 100),
       Subscription.mk 2 1 "profitguard_lifetime" "active" 200000 0 none]
      1 0 ≠
    specMaxCeiling
      [Subscription.mk 1 1 "gallery" "active" 39000 0 (some 100),
       Subscription.mk 2 1 "profitguard_lifetime" "active" 200000 0 none]
      1 0 := by
  refine ⟨?_, ?_, ?_⟩ <;> decide

/-- C4 amended: the resolver is first-match over the fixed plan order
`allinone`, `gallery`, `profitguard_lifetime`, `profitguard_pro` /
`profitguard_lite`, not a maximum: whenever no `allinone` subscription is
effective but a `gallery` one is, the gallery ceiling (10) is returned —
even if a `profitguard_lifetime` subscription (ceiling 20) is also
effective. -/
theorem link_limit_first_match
    (users : List User) (subs : List Subscription) (uid : Nat) (now : Time)
    (hall : has_active_subscription subs uid "allinone" now = false)
    (hgal : has_active_subscription subs uid "gallery" now = true) :
    get_link_request_limit users subs uid now =
      LINK_REQUEST_LIMIT_SUBSCRIBER := by
  simp [get_link_request_limit, hall, hgal]

/-- Witness for C4 amended at the counterexample state: gallery effective
and lifetime effective, no allinone — the resolver yields 10. -/
theorem link_limit_first_match_witness :
    get_link_request_limit []
      [Subscription.mk 1 1 "gallery" "active" 39000 0 (some 100),
       Subscription.mk 2 1 "profitguard_lifetime" "active" 200000 0 none]
      1 0 = LINK_REQUEST_LIMIT_SUBSCRIBER :=
  link_limit_first_match []
    [Subscription.mk 1 1 "gallery" "active" 39000 0 (some 100),
     Subscription.mk 2 1 "profitguard_lifetime" "active" 200000 0 none]
    1 0 (by decide) (by decide)

end Moneying

namespace Moneying

/-- Rows matched by the referral-extension query at registration
(src/app.py lines 2475-2478): the referrer's rows with
`expires_at > utcnow()`.  The source does NOT filter on `status`, and the
SQL comparison excludes `NULL` expiry (lifetime) rows. -/
def referralCandidates (subs : List Subscription) (rid : Nat)
    (now : Time) : List Subscription :=
  subs.filter (fun s => s.user_id == rid &&
    match s.expires_at with
    | none => false
    | some e => now < e)

/-- The sort key of `order_by(Subscription.expires_at.desc())` on the
candidate rows (all of which carry a non-null expiry). -/
def expiresVal (s : Subscription) : Nat := s.expires_at.getD 0

/-- `order_by(expires_at.desc()).first()` on a list of rows: an element
with maximal expiry (the earliest such row when expiries tie — SQL leaves
tie order unspecified and this models one deterministic execution). -/
def pickLatest : List Subscription → Option Subscription
  | [] => none
  | s :: rest =>
    match pickLatest rest with
    | none => some s
    | some t => if expiresVal s < expiresVal t then some t else some s

/-- The `User` row inserted by `register` (src/app.py line 2468):
`referral_code` stays at its column default. -/
def newUserRow (email pwHash : String) (newUserId : Nat)
    (referredBy : Option Nat) : User :=
  { id := newUserId, email := email, pw_hash := pwHash,
    free_trial_used := false, free_trial_expires := none,
    referral_code := none, referred_by := referredBy,
    login_fail_count := 0, locked_until := none, is_seller := false,
    session_token := none, is_staff := false }

/-- Referrer lookup at registration (src/app.py lines 2461-2465):
only a non-empty code is looked up, by `referral_code` equality. -/
def lookup_referrer (users : List User) (referralCode : String) :
    Option Nat :=
  if referralCode ≠ "" then
    match users.find? (fun u => u.referral_code == some referralCode) with
    | some r => some r.id
    | none => none
  else none

/-- The referral bonus applied after the new user is committed
(src/app.py lines 2472-2482): the referrer's latest-expiring row with a
future expiry — any status — gets `expires_at += 7 days`; if no such row
exists nothing is touched. -/
def extend_referral_bonus (subs : List Subscription) (rid : Nat)
    (now : Time) : List Subscription :=
  match pickLatest (referralCandidates subs rid now) with
  | none => subs
  | some chosen =>
    updateFirst (fun s => s == chosen)
      (fun s => { s with expires_at := s.expires_at.map (· + days 7) }) subs

/-- Outcomes of `register`, one per exit (src/app.py lines 2442-2498). -/
inductive RegisterResult
  | passwordMismatch
  | emailTaken
  | created
deriving Repr, DecidableEq

/-- The `register` route (src/app.py lines 2442-2498), POST branch.
Guards in source order: password confirmation (line 2453; the
missing-field branch at 2450-2451 flashes without returning and has no
control effect), duplicate email (2457).  Then the referrer is resolved
from the non-empty referral code (2461-2465), the new `User` row is
committed (2468-2470), and the referral bonus of lines 2472-2482 runs
against the referrer found by id. -/
def register (users : List User) (subs : List Subscription)
    (email password passwordConfirm referralCode : String)
    (newUserId : Nat) (newPwHash : String) (now : Time) :
    RegisterResult × List User × List Subscription :=
  if password ≠ passwordConfirm then (.passwordMismatch, users, subs)
  else if (users.find? (fun u => u.email == email)).isSome then
    (.emailTaken, users, subs)
  else
    match lookup_referrer users referralCode with
    | none =>
      (.created, users ++ [newUserRow email newPwHash newUserId none], subs)
    | some rid =>
      let users2 :=
        users ++ [newUserRow email newPwHash newUserId (some rid)]
      match users2.find? (fun v => v.id == rid) with
      | none => (.created, users2, subs)
      | some referrer =>
        (.created, users2, extend_referral_bonus subs referrer.id now)

theorem pickLatest_eq_none (l : List Subscription)
    (h : pickLatest l = none) : l = [] := by
  cases l with
  | nil => rfl
  | cons s rest =>
    exfalso
    simp only [pickLatest] at h
    cases hr : pickLatest rest with
    | none => simp only [hr] at h; exact Option.noConfusion h
    | some t =>
      simp only [hr] at h
      by_cases hc : expiresVal s < expiresVal t
      · rw [if_pos hc] at h; exact Option.noConfusion h
      · rw [if_neg hc] at h; exact Option.noConfusion h

theorem pickLatest_mem (l : List Subscription) (c : Subscription)
    (h : pickLatest l = some c) : c ∈ l := by
  induction l with
  | nil => simp [pickLatest] at h
  | cons s rest ih =>
    simp only [pickLatest] at h
    cases hr : pickLatest rest with
    | none =>
      simp only [hr] at h
      injection h with h
      subst h
      exact List.mem_cons_self _ _
    | some t =>
      simp only [hr] at h
      by_cases hc : expiresVal s < expiresVal t
      · rw [if_pos hc] at h
        injection h with h
        subst h
        exact List.mem_cons_of_mem _ (ih hr)
      · rw [if_neg hc] at h
        injection h with h
        subst h
        exact List.mem_cons_self _ _

theorem pickLatest_max (l : List Subscription) :
    ∀ c : Subscription, pickLatest l = some c →
    ∀ d ∈ l, expiresVal d ≤ expiresVal c := by
  induction l with
  | nil => intro c h; simp [pickLatest] at h
  | cons s rest ih =>
    intro c h d hd
    simp only [pickLatest] at h
    cases hr : pickLatest rest with
    | none =>
      have hnil := pickLatest_eq_none rest hr
      subst hnil
      simp only [hr] at h
      injection h with h
      subst h
      rcases List.mem_cons.mp hd with h1 | h1
      · subst h1; exact le_refl _
      · simp at h1
    | some t =>
      simp only [hr] at h
      by_cases hc : expiresVal s < expiresVal t
      · rw [if_pos hc] at h
        injection h with h
        subst h
        rcases List.mem_cons.mp hd with h1 | h1
        · subst h1; exact le_of_lt hc
        · exact ih t hr d h1
      · rw [if_neg hc] at h
        injection h with h
        subst h
        rcases List.mem_cons.mp hd with h1 | h1
        · subst h1; exact le_refl _
        · exact le_trans (ih t hr d h1) (le_of_not_lt hc)

end Moneying

namespace Moneying

/-- Unfolding of `register` on the successful-referral path: email free,
non-empty code resolving to referrer `r`, and `w` the row the
post-commit `User.query.get` re-fetch returns for `r.id`. -/
theorem register_eq_referral
    (users : List User) (subs : List Subscription)
    (email password code hash : String) (nid : Nat) (now : Time) (r w : User)
    (hemail : users.find? (fun u => u.email == email) = none)
    (hcode : code ≠ "")
    (href : users.find? (fun u => u.referral_code == some code) = some r)
    (hw : (users ++ [newUserRow email hash nid (some r.id)]).find?
        (fun v => v.id == r.id) = some w) :
    register users subs email password password code nid hash now =
      (RegisterResult.created,
       users ++ [newUserRow email hash nid (some r.id)],
       extend_referral_bonus subs w.id now) := by
  have hlr : lookup_referrer users code = some r.id := by
    simp [lookup_referrer, hcode, href]
  simp only [register, hemail, hlr, Option.isSome_none, Bool.false_eq_true,
    if_false, ne_eq, not_true_eq_false, hw]

/-- C5 amended: at a registration carrying a valid referral code, the
bonus query selects among the referrer's rows with a future, non-null
`expires_at` — regardless of `status`, so cancelled-but-unexpired rows
are eligible and lifetime (null-expiry) rows are not.  If no such row
exists, no subscription is touched; otherwise the selected row is one of
those candidates with maximal expiry, it alone gets `expires_at`
advanced by exactly 7 days, and no row is created or removed. -/
theorem register_referral_bonus
    (users : List User) (subs : List Subscription)
    (email password code hash : String) (nid : Nat) (now : Time) (r w : User)
    (hemail : users.find? (fun u => u.email == email) = none)
    (hcode : code ≠ "")
    (href : users.find? (fun u => u.referral_code == some code) = some r)
    (hw : (users ++ [newUserRow email hash nid (some r.id)]).find?
        (fun v => v.id == r.id) = some w) :
    (referralCandidates subs w.id now = [] →
      register users subs email password password code nid hash now =
        (RegisterResult.created,
         users ++ [newUserRow email hash nid (some r.id)], subs)) ∧
    (∀ c : Subscription,
      pickLatest (referralCandidates subs w.id now) = some c →
      c ∈ referralCandidates subs w.id now ∧
      (∀ d ∈ referralCandidates subs w.id now,
        expiresVal d ≤ expiresVal c) ∧
      register users subs email password password code nid hash now =
        (RegisterResult.created,
         users ++ [newUserRow email hash nid (some r.id)],
         updateFirst (fun s => s == c)
           (fun s => { s with expires_at := s.expires_at.map (· + days 7) })
           subs) ∧
      (updateFirst (fun s => s == c)
        (fun s => { s with expires_at := s.expires_at.map (· + days 7) })
        subs).length = subs.length) := by
  rw [register_eq_referral users subs email password code hash nid now r w
    hemail hcode href hw]
  constructor
  · intro hnil
    simp [extend_referral_bonus, hnil, pickLatest]
  · intro c hpick
    refine ⟨pickLatest_mem _ c hpick, pickLatest_max _ c hpick, ?_, ?_⟩
    · simp [extend_referral_bonus, hpick]
    · exact updateFirst_length _ _ subs

/-- Counterexample to C5 as stated: referrer 1 holds a single CANCELLED
gallery subscription expiring on day 5 — no effective subscription at
all — yet a referred registration advances that cancelled row to day 12.
The claim demands that a registration whose referrer has no effective
subscription change no subscription. -/
theorem register_referral_cancelled_counterexample :
    get_user_subscriptions
      [Subscription.mk 10 1 "gallery" "cancelled" 39000 0 (some (days 5))]
      1 0 = [] ∧
    (register
      [User.mk 1 "r@x.k" "h" false none (some "ABCD1234") none 0 none
        false none false]
      [Subscription.mk 10 1 "gallery" "cancelled" 39000 0 (some (days 5))]
      "n@x.k" "pw" "pw" "ABCD1234" 2 "h2" 0).2.2 =
      [Subscription.mk 10 1 "gallery" "cancelled" 39000 0 (some (days 12))] ∧
    (register
      [User.mk 1 "r@x.k" "h" false none (some "ABCD1234") none 0 none
        false none false]
      [Subscription.mk 10 1 "gallery" "cancelled" 39000 0 (some (days 5))]
      "n@x.k" "pw" "pw" "ABCD1234" 2 "h2" 0).2.2 ≠
      [Subscription.mk 10 1 "gallery" "cancelled" 39000 0 (some (days 5))] := by
  refine ⟨?_, ?_, ?_⟩ <;> decide

/-- Witness for C5 amended at the counterexample state: the cancelled
future-dated row is the unique candidate, and registration advances
exactly it by 7 days. -/
theorem register_referral_bonus_witness :
    register
      [User.mk 1 "r@x.k" "h" false none (some "ABCD1234") none 0 none
        false none false]
      [Subscription.mk 10 1 "gallery" "cancelled" 39000 0 (some (days 5))]
      "n@x.k" "pw" "pw" "ABCD1234" 2 "h2" 0 =
      (RegisterResult.created,
       [User.mk 1 "r@x.k" "h" false none (some "ABCD1234") none 0 none
          false none false,
        newUserRow "n@x.k" "h2" 2 (some 1)],
       [Subscription.mk 10 1 "gallery" "cancelled" 39000 0
          (some (days 12))]) := by
  have h := (register_referral_bonus
    [User.mk 1 "r@x.k" "h" false none (some "ABCD1234") none 0 none
      false none false]
    [Subscription.mk 10 1 "gallery" "cancelled" 39000 0 (some (days 5))]
    "n@x.k" "pw" "ABCD1234" "h2" 2 0
    (User.mk 1 "r@x.k" "h" false none (some "ABCD1234") none 0 none
      false none false)
    (User.mk 1 "r@x.k" "h" false none (some "ABCD1234") none 0 none
      false none false)
    (by decide) (by decide) (by decide) (by decide)).2
    (Subscription.mk 10 1 "gallery" "cancelled" 39000 0 (some (days 5)))
    (by decide)
  rw [h.2.2.1]
  decide

end Moneying

namespace Moneying

/-- The subscription-table effect of `admin_revenue_approve`
(src/app.py lines 3882-3940).  The route also sets the proof row to
"approved", flags the community post, and inserts a notification — none
of which touch the subscription table and all of which are outside this
claim's scope.  The extension core (lines 3894-3906): fetch the user,
fetch the FIRST `status == "active"` row of the user (no expiry check, no
ordering), then `expires_at += 7 days` when `expires_at` is set, and
`expires_at = utcnow() + 7 days` when it is `None`. -/
def admin_revenue_approve (users : List User) (subs : List Subscription)
    (uid : Nat) (now : Time) : List Subscription :=
  match users.find? (fun u => u.id == uid) with
  | none => subs
  | some user =>
    match subs.find? (fun s =>
        s.user_id == user.id && s.status == "active") with
    | none => subs
    | some active_sub =>
      match active_sub.expires_at with
      | some e =>
        updateFirst (fun s => s == active_sub)
          (fun s => { s with expires_at := some (e + days 7) }) subs
      | none =>
        updateFirst (fun s => s == active_sub)
          (fun s => { s with expires_at := some (now + days 7) }) subs

/-- Modelled from the spec: the order on `expires_at` values under which
the spec's "never mutated to shorten `expires_at`" is stated — a null
expiry (non-expiring) counts as later than every timestamp. -/
def expiryLe (before after : Option Time) : Prop :=
  match before, after with
  | _, none => True
  | none, some _ => False
  | some x, some y => x ≤ y

/-- C6 amended (also the equational core for C2): on approval of a
reward claim, if the account has a first status-"active" subscription
row, a non-null `expires_at` is advanced by exactly 7 days and a null
one is SET to `now + 7 days`; if the account has no status-"active" row
at all, nothing changes — no fresh 7-day grant is created. -/
theorem reward_approval_extends_or_noop :
    (∀ (users : List User) (subs : List Subscription) (uid : Nat)
       (now : Time) (u : User),
      users.find? (fun v => v.id == uid) = some u →
      subs.find? (fun s => s.user_id == u.id && s.status == "active") =
        none →
      admin_revenue_approve users subs uid now = subs) ∧
    (∀ (users : List User) (subs : List Subscription) (uid : Nat)
       (now : Time) (u : User) (s : Subscription) (e : Time),
      users.find? (fun v => v.id == uid) = some u →
      subs.find? (fun t => t.user_id == u.id && t.status == "active") =
        some s →
      s.expires_at = some e →
      admin_revenue_approve users subs uid now =
        updateFirst (fun t => t == s)
          (fun t => { t with expires_at := some (e + days 7) }) subs ∧
      (updateFirst (fun t => t == s)
        (fun t => { t with expires_at := some (e + days 7) })
        subs).length = subs.length) ∧
    (∀ (users : List User) (subs : List Subscription) (uid : Nat)
       (now : Time) (u : User) (s : Subscription),
      users.find? (fun v => v.id == uid) = some u →
      subs.find? (fun t => t.user_id == u.id && t.status == "active") =
        some s →
      s.expires_at = none →
      admin_revenue_approve users subs uid now =
        updateFirst (fun t => t == s)
          (fun t => { t with expires_at := some (now + days 7) }) subs) := by
  refine ⟨?_, ?_, ?_⟩
  · intro users subs uid now u hu hs
    simp only [admin_revenue_approve, hu, hs]
  · intro users subs uid now u s e hu hs he
    constructor
    · simp only [admin_revenue_approve, hu, hs, he]
    · exact updateFirst_length _ _ subs
  · intro users subs uid now u s hu hs he
    simp only [admin_revenue_approve, hu, hs, he]

/-- Counterexample to C6 as stated: account 5 exists and has no
subscription row at all; approving its reward claim leaves the
subscription table empty — no fresh 7-day entitlement (no row expiring
at `now + 7 days`, nor any row) is created. -/
theorem reward_approval_no_sub_counterexample :
    admin_revenue_approve
      [User.mk 5 "u@x.k" "h" false none none none 0 none false none false]
      [] 5 1000 = [] ∧
    ¬ ∃ s ∈ admin_revenue_approve
      [User.mk 5 "u@x.k" "h" false none none none 0 none false none false]
      [] 5 1000, s.expires_at = some (1000 + days 7) := by
  refine ⟨?_, ?_⟩ <;> decide

/-- Witness for C6 amended: account 7's active gallery row expiring at
tick 100 is advanced to tick `100 + 7 days` by an approval, and an
account with no status-active row is left untouched. -/
theorem reward_approval_extends_or_noop_witness :
    admin_revenue_approve
      [User.mk 7 "u@x.k" "h" false none none none 0 none false none false]
      [Subscription.mk 1 7 "gallery" "active" 39000 0 (some 100)]
      7 1000 =
      [Subscription.mk 1 7 "gallery" "active" 39000 0
        (some (100 + days 7))] ∧
    admin_revenue_approve
      [User.mk 5 "u@x.k" "h" false none none none 0 none false none false]
      [Subscription.mk 2 5 "gallery" "cancelled" 39000 0 (some 100)]
      5 1000 =
      [Subscription.mk 2 5 "gallery" "cancelled" 39000 0 (some 100)] := by
  constructor
  · have h := (reward_approval_extends_or_noop.2.1
      [User.mk 7 "u@x.k" "h" false none none none 0 none false none false]
      [Subscription.mk 1 7 "gallery" "active" 39000 0 (some 100)]
      7 1000
      (User.mk 7 "u@x.k" "h" false none none none 0 none false none false)
      (Subscription.mk 1 7 "gallery" "active" 39000 0 (some 100))
      100 (by decide) (by decide) rfl).1
    rw [h]
    decide
  · exact reward_approval_extends_or_noop.1
      [User.mk 5 "u@x.k" "h" false none none none 0 none false none false]
      [Subscription.mk 2 5 "gallery" "cancelled" 39000 0 (some 100)]
      5 1000
      (User.mk 5 "u@x.k" "h" false none none none 0 none false none false)
      (by decide) (by decide)

/-- C2 fails on the code: approving a reward claim for account 7, whose
single subscription is an ACTIVE LIFETIME one (`expires_at` null,
i.e. later than every timestamp under the spec's order), rewrites its
`expires_at` to `now + 7 days` — a strict shortening, contradicting both
the invariant and the route's own notification text ("subscription
extended by 7 days").  This evaluates the model at that failing input. -/
theorem reward_approval_shortens_lifetime_bug :
    admin_revenue_approve
      [User.mk 7 "u@x.k" "h" false none none none 0 none false none false]
      [Subscription.mk 1 7 "profitguard_lifetime" "active" 200000 0 none]
      7 1000 =
      [Subscription.mk 1 7 "profitguard_lifetime" "active" 200000 0
        (some (1000 + days 7))] ∧
    ¬ expiryLe none (some (1000 + days 7)) := by
  exact ⟨by decide, fun h => h⟩

end Moneying

namespace Moneying

/-- The fields of the caller-side Flask `session` dict that the engine
reads or writes. -/
structure ClientSession where
  user_id : Option Nat
  user_email : Option String
  session_token : Option String
  admin : Bool
  subscriber : Bool
  is_trial : Bool
  is_seller : Bool
deriving Repr, DecidableEq

/-- `session.clear()`: every field back to its absent default. -/
def clearedSession : ClientSession :=
  { user_id := none, user_email := none, session_token := none,
    admin := false, subscriber := false, is_trial := false,
    is_seller := false }

/-- `update_session_status` (src/app.py lines 827-839): refresh the
subscriber/trial flags of the session from the store. -/
def update_session_status (users : List User) (subs : List Subscription)
    (uid : Nat) (now : Time) (sess : ClientSession) : ClientSession :=
  if get_user_subscriptions subs uid now ≠ [] then
    { sess with subscriber := true, is_trial := false }
  else if is_trial_active users uid now then
    { sess with is_trial := true, subscriber := false }
  else
    { sess with is_trial := false, subscriber := false }

/-- The successful tail of `login` (src/app.py lines 2690-2707), entered
after the password and lockout guards (lines 2650-2688) have passed:
reset the failure counter, store a fresh token on the user row
(`secrets.token_hex(32)` — its 256 random bits are generated outside the
engine and passed in as `newToken`), clear the session and rebuild it
around the new token, then refresh the status flags. -/
def login (users : List User) (subs : List Subscription) (uid : Nat)
    (email : String) (newToken : String) (now : Time) :
    List User × ClientSession :=
  let users2 := updateFirst (fun u => u.id == uid)
    (fun u => { u with login_fail_count := 0, locked_until := none,
                       session_token := some newToken }) users
  (users2,
   update_session_status users2 subs uid now
     { clearedSession with user_id := some uid, user_email := some email,
                           session_token := some newToken })

/-- The stale-token test of the `before_request` hook (src/app.py lines
160-162): the user row exists and its stored token differs from the one
the session presents. -/
def isStale (users : List User) (uid : Nat) (sess : ClientSession) :
    Bool :=
  match users.find? (fun u => u.id == uid) with
  | some u => u.session_token != sess.session_token
  | none => false

/-- The flag refresh of the hook's tail (src/app.py lines 174-203). -/
def refreshFlags (users : List User) (subs : List Subscription)
    (uid : Nat) (now : Time) (sess : ClientSession) : ClientSession :=
  match users.find? (fun u => u.id == uid) with
  | none => sess
  | some u =>
    update_session_status users subs uid now
      { sess with is_seller := u.is_seller }

/-- Outcome of the `before_request` hook: continue into the route with
the (possibly refreshed) session, or clear it and redirect to login. -/
inductive SessionCheckResult
  | proceed (sess : ClientSession)
  | redirectLogin (sess : ClientSession)
deriving Repr, DecidableEq

/-- The `before_request` hook `check_session_token` (src/app.py lines
134-203): anonymous sessions pass; `/static/` and `/r2/` paths are
skipped; a non-admin session presenting a token that differs from the
stored one is cleared and redirected to login; otherwise the
subscriber/trial/seller flags are refreshed.  Python's
`request.path.startswith(p)` is embedded as the character-list prefix
test `p.toList.isPrefixOf path.toList` (the same Boolean function,
stated over the string's characters). -/
def check_session_token (users : List User) (subs : List Subscription)
    (path : String) (sess : ClientSession) (now : Time) :
    SessionCheckResult :=
  match sess.user_id with
  | none => .proceed sess
  | some uid =>
    if ("/static/".toList).isPrefixOf path.toList
        || ("/r2/".toList).isPrefixOf path.toList then
      .proceed sess
    else if !sess.admin && isStale users uid sess then
      .redirectLogin clearedSession
    else .proceed (refreshFlags users subs uid now sess)

theorem update_session_status_core_fields (users : List User)
    (subs : List Subscription) (uid : Nat) (now : Time)
    (sess : ClientSession) :
    (update_session_status users subs uid now sess).user_id =
      sess.user_id ∧
    (update_session_status users subs uid now sess).session_token =
      sess.session_token ∧
    (update_session_status users subs uid now sess).admin = sess.admin := by
  unfold update_session_status
  split_ifs <;> exact ⟨rfl, rfl, rfl⟩

/-- Unfolding of the hook on a stale non-admin session. -/
theorem check_session_token_eq_redirect (users : List User)
    (subs : List Subscription) (path : String) (sess : ClientSession)
    (now : Time) (uid : Nat) (u : User)
    (huid : sess.user_id = some uid)
    (hp1 : ("/static/".toList).isPrefixOf path.toList = false)
    (hp2 : ("/r2/".toList).isPrefixOf path.toList = false)
    (hadmin : sess.admin = false)
    (hfind : users.find? (fun v => v.id == uid) = some u)
    (hmism : (u.session_token != sess.session_token) = true) :
    check_session_token users subs path sess now =
      SessionCheckResult.redirectLogin clearedSession := by
  have hstale : isStale users uid sess = true := by
    simp only [isStale, hfind]
    exact hmism
  simp only [check_session_token, huid, hp1, hp2, hadmin, hstale,
    Bool.or_self, Bool.false_eq_true, if_false, Bool.not_false,
    Bool.and_self, if_true]

/-- A proceeding non-admin request presents exactly the stored token. -/
theorem check_session_token_proceed_means_match (users : List User)
    (subs : List Subscription) (path : String) (sess : ClientSession)
    (now : Time) (uid : Nat) (u : User) (t : String)
    (huid : sess.user_id = some uid)
    (hp1 : ("/static/".toList).isPrefixOf path.toList = false)
    (hp2 : ("/r2/".toList).isPrefixOf path.toList = false)
    (hadmin : sess.admin = false)
    (hfind : users.find? (fun v => v.id == uid) = some u)
    (htok : sess.session_token = some t)
    (sess2 : ClientSession)
    (hproceed : check_session_token users subs path sess now =
      SessionCheckResult.proceed sess2) :
    u.session_token = some t := by
  by_cases hmism : (u.session_token != sess.session_token) = true
  · rw [check_session_token_eq_redirect users subs path sess now uid u
      huid hp1 hp2 hadmin hfind hmism] at hproceed
    exact absurd hproceed (by simp)
  · rw [Bool.not_eq_true, bne_eq_false_iff_eq] at hmism
    rw [hmism, htok]

end Moneying

namespace Moneying

/-- After `login`, the user row found by id carries the new token. -/
theorem login_find (users : List User) (subs : List Subscription)
    (uid : Nat) (email tk : String) (now : Time) (u : User)
    (hfind : users.find? (fun v => v.id == uid) = some u) :
    (login users subs uid email tk now).1.find? (fun v => v.id == uid) =
      some { u with login_fail_count := 0, locked_until := none,
                    session_token := some tk } := by
  simp only [login]
  rw [find?_updateFirst (fun v => v.id == uid)
    (fun v => { v with login_fail_count := 0, locked_until := none,
                       session_token := some tk })
    (fun a ha => ha) users, hfind]
  rfl

/-- The session built by `login` carries the caller id, the fresh token
and no admin flag. -/
theorem login_session_fields (users : List User)
    (subs : List Subscription) (uid : Nat) (email tk : String)
    (now : Time) :
    (login users subs uid email tk now).2.user_id = some uid ∧
    (login users subs uid email tk now).2.session_token = some tk ∧
    (login users subs uid email tk now).2.admin = false := by
  simp only [login]
  have h := update_session_status_core_fields
    (updateFirst (fun v => v.id == uid)
      (fun v => { v with login_fail_count := 0, locked_until := none,
                         session_token := some tk }) users)
    subs uid now
    { clearedSession with user_id := some uid, user_email := some email,
                          session_token := some tk }
  exact ⟨h.1, h.2.1, h.2.2⟩

set_option maxHeartbeats 1000000 in
/-- C3: for a non-admin account, a second login rotates the stored token,
after which (first conjunct) the session issued by the first login —
still presenting the old token — is cleared in full and redirected to
re-authentication by the request hook on any ordinary path; and (second
conjunct) at most the latest token validates: any non-admin session for
this account that the hook lets proceed must be presenting exactly the
second login's token. -/
theorem second_login_invalidates_first_token
    (users : List User) (subs subs1 subs2 : List Subscription)
    (uid : Nat) (email1 email2 t1 t2 path : String)
    (now1 now2 now : Time) (u : User)
    (hfind : users.find? (fun v => v.id == uid) = some u)
    (hne : t1 ≠ t2)
    (hp1 : ("/static/".toList).isPrefixOf path.toList = false)
    (hp2 : ("/r2/".toList).isPrefixOf path.toList = false) :
    check_session_token
      (login (login users subs uid email1 t1 now1).1 subs1 uid email2 t2
        now2).1
      subs2 path (login users subs uid email1 t1 now1).2 now =
      SessionCheckResult.redirectLogin clearedSession ∧
    (∀ (t : String) (sessX s2 : ClientSession),
      sessX.user_id = some uid → sessX.admin = false →
      sessX.session_token = some t →
      check_session_token
        (login (login users subs uid email1 t1 now1).1 subs1 uid email2 t2
          now2).1
        subs2 path sessX now = SessionCheckResult.proceed s2 →
      t = t2) := by
  have hfind1 := login_find users subs uid email1 t1 now1 u hfind
  have hfind2 := login_find (login users subs uid email1 t1 now1).1 subs1
    uid email2 t2 now2 _ hfind1
  obtain ⟨hu1, ht1, ha1⟩ :=
    login_session_fields users subs uid email1 t1 now1
  constructor
  · refine check_session_token_eq_redirect _ subs2 path _ now uid _ hu1
      hp1 hp2 ha1 hfind2 ?_
    rw [ht1]
    simp only [bne_iff_ne, ne_eq, Option.some.injEq]
    exact fun h => hne h.symm
  · intro t sessX s2 hx1 hx2 hx3 hproc
    have hm := check_session_token_proceed_means_match _ subs2 path sessX
      now uid _ t hx1 hp1 hp2 hx2 hfind2 hx3 s2 hproc
    simp only at hm
    injection hm with hm
    exact hm.symm

/-- Witness for C3: account 7 logs in from caller A (token "tokA"), then
from caller B (token "tokB"); caller A's next request to "/gallery" is
cleared and redirected to login. -/
theorem second_login_invalidates_first_token_witness :
    check_session_token
      (login (login
        [User.mk 7 "a@b.c" "h" false none none none 0 none false none
          false] [] 7 "a@b.c" "tokA" 0).1
        [] 7 "a@b.c" "tokB" 5).1
      [] "/gallery"
      (login [User.mk 7 "a@b.c" "h" false none none none 0 none false none
        false] [] 7 "a@b.c" "tokA" 0).2 9 =
      SessionCheckResult.redirectLogin clearedSession :=
  (second_login_invalidates_first_token
    [User.mk 7 "a@b.c" "h" false none none none 0 none false none false]
    [] [] [] 7 "a@b.c" "a@b.c" "tokA" "tokB" "/gallery" 0 5 9
    (User.mk 7 "a@b.c" "h" false none none none 0 none false none false)
    (by decide) (by decide) (by decide) (by decide)).1

end Moneying

namespace Moneying

/-- A Python `datetime` with its calendar fields, needed where the
source manipulates them (`now.replace(day=1, hour=0, minute=0,
second=0, microsecond=0)` in `get_monthly_link_request_count`). -/
structure DateTime where
  year : Nat
  month : Nat
  day : Nat
  hour : Nat
  minute : Nat
  second : Nat
  micro : Nat
deriving Repr, DecidableEq

/-- Python's `datetime <= datetime`: lexicographic over the fields. -/
def DateTime.Le (a b : DateTime) : Prop :=
  a.year < b.year ∨ (a.year = b.year ∧
    (a.month < b.month ∨ (a.month = b.month ∧
      (a.day < b.day ∨ (a.day = b.day ∧
        (a.hour < b.hour ∨ (a.hour = b.hour ∧
          (a.minute < b.minute ∨ (a.minute = b.minute ∧
            (a.second < b.second ∨ (a.second = b.second ∧
              a.micro ≤ b.micro)))))))))))

instance (a b : DateTime) : Decidable (a.Le b) := by
  unfold DateTime.Le
  infer_instance

theorem dateTimeLe_trans (a b c : DateTime) (h1 : a.Le b) (h2 : b.Le c) :
    a.Le c := by
  unfold DateTime.Le at h1 h2 ⊢
  omega

/-- The `LinkRequest` model (src/app.py lines 410-...), restricted to the
columns the quota accountant reads: the requester (tracked by email) and
the creation timestamp. -/
structure LinkRequest where
  requester_email : String
  created_at : DateTime
deriving Repr, DecidableEq

/-- `now.replace(day=1, hour=0, minute=0, second=0, microsecond=0)`
(src/app.py line 798): the first instant of the current month. -/
def firstDayOfMonth (now : DateTime) : DateTime :=
  { now with day := 1, hour := 0, minute := 0, second := 0, micro := 0 }

/-- `get_monthly_link_request_count` (src/app.py lines 794-802): the
count of the caller's link-request rows with
`created_at >= first_day`; a missing email short-circuits to 0. -/
def get_monthly_link_request_count (reqs : List LinkRequest)
    (user_email : String) (now : DateTime) : Nat :=
  if user_email == "" then 0
  else
    (reqs.filter (fun r => r.requester_email == user_email &&
      decide ((firstDayOfMonth now).Le r.created_at))).length

/-- `can_make_link_request` (src/app.py lines 820-821).  The source reads
the clock separately inside the count helper and inside the limit
helpers, so the two reads are separate parameters here: `nowCal` is the
calendar clock read of `get_monthly_link_request_count`, `nowT` the
timeline read of the subscription/trial expiry comparisons. -/
def can_make_link_request (users : List User) (subs : List Subscription)
    (reqs : List LinkRequest) (uid : Nat) (user_email : String)
    (nowCal : DateTime) (nowT : Time) : Bool :=
  decide (get_monthly_link_request_count reqs user_email nowCal <
    get_link_request_limit users subs uid nowT)

/-- Modelled from the spec: "Quota window = calendar month, defined as
[first instant of current month in UTC, now]" — the window start written
out field by field. -/
def specMonthStart (now : DateTime) : DateTime :=
  { year := now.year, month := now.month, day := 1, hour := 0,
    minute := 0, second := 0, micro := 0 }

/-- Modelled from the spec: the number of the account's link-request
records created since the first instant of the current calendar month. -/
def specMonthlyCount (reqs : List LinkRequest) (user_email : String)
    (now : DateTime) : Nat :=
  (reqs.filter (fun r => r.requester_email == user_email &&
    decide ((specMonthStart now).Le r.created_at))).length

/-- Every branch of the tier resolver yields a positive ceiling. -/
theorem get_link_request_limit_pos (users : List User)
    (subs : List Subscription) (uid : Nat) (now : Time) :
    1 ≤ get_link_request_limit users subs uid now := by
  unfold get_link_request_limit
  split_ifs <;> decide

/-- The month cannot have started after `now1` if `now2`'s calendar
month is strictly later than `now1`'s. -/
theorem not_monthStart_le_of_rollover (now1 now2 : DateTime)
    (hroll : now1.year < now2.year ∨
      (now1.year = now2.year ∧ now1.month < now2.month)) :
    ¬ (firstDayOfMonth now2).Le now1 := by
  intro hle
  unfold firstDayOfMonth DateTime.Le at hle
  simp only at hle
  omega

/-- C9: the quota gate.  First conjunct: for a caller with a non-empty
email, a link request is admitted exactly when the number of that
caller's link-request records created since the first instant of the
current calendar month is strictly below the resolver's ceiling.  Second
conjunct: when the calendar month rolls over — every existing record was
created at or before `now1`, and `now2` lies in a strictly later
calendar month — the request is admitted again with no other state
change, whatever the ceiling. -/
theorem quota_window_iff_and_month_rollover_resets :
    (∀ (users : List User) (subs : List Subscription)
       (reqs : List LinkRequest) (uid : Nat) (email : String)
       (nowCal : DateTime) (nowT : Time),
      email ≠ "" →
      (can_make_link_request users subs reqs uid email nowCal nowT = true ↔
       specMonthlyCount reqs email nowCal <
         get_link_request_limit users subs uid nowT)) ∧
    (∀ (users : List User) (subs : List Subscription)
       (reqs : List LinkRequest) (uid : Nat) (email : String)
       (now1 now2 : DateTime) (nowT : Time),
      email ≠ "" →
      (∀ r ∈ reqs, r.created_at.Le now1) →
      (now1.year < now2.year ∨
        (now1.year = now2.year ∧ now1.month < now2.month)) →
      can_make_link_request users subs reqs uid email now2 nowT = true) := by
  have hws : ∀ now : DateTime, firstDayOfMonth now = specMonthStart now :=
    fun now => rfl
  have hcount : ∀ reqs email now, email ≠ "" →
      get_monthly_link_request_count reqs email now =
        specMonthlyCount reqs email now := by
    intro reqs email now hemail
    unfold get_monthly_link_request_count specMonthlyCount
    rw [if_neg (by simp [hemail]), hws]
  constructor
  · intro users subs reqs uid email nowCal nowT hemail
    unfold can_make_link_request
    rw [hcount reqs email nowCal hemail, decide_eq_true_iff]
  · intro users subs reqs uid email now1 now2 nowT hemail hold hroll
    unfold can_make_link_request
    have hzero : get_monthly_link_request_count reqs email now2 = 0 := by
      unfold get_monthly_link_request_count
      rw [if_neg (by simp [hemail])]
      have : reqs.filter (fun r => r.requester_email == email &&
          decide ((firstDayOfMonth now2).Le r.created_at)) = [] := by
        rw [List.filter_eq_nil_iff]
        intro r hr
        simp only [Bool.and_eq_true, decide_eq_true_eq, not_and]
        intro _ hle
        exact not_monthStart_le_of_rollover now1 now2 hroll
          (dateTimeLe_trans _ _ _ hle (hold r hr))
      rw [this]
      rfl
    rw [hzero, decide_eq_true_iff]
    exact get_link_request_limit_pos users subs uid nowT

/-- Witness for C9 at concrete data: in September 2025 the free-tier
caller (ceiling 1) has exhausted the quota with one record; the iff
denies a second request that month, and on 1 October 2025 the same state
admits again. -/
theorem quota_window_iff_and_month_rollover_resets_witness :
    can_make_link_request [] []
      [LinkRequest.mk "a@b.c" (DateTime.mk 2025 9 20 10 0 0 0)]
      7 "a@b.c" (DateTime.mk 2025 9 21 8 30 0 0) 0 = false ∧
    can_make_link_request [] []
      [LinkRequest.mk "a@b.c" (DateTime.mk 2025 9 20 10 0 0 0)]
      7 "a@b.c" (DateTime.mk 2025 10 1 0 0 0 0) 0 = true := by
  constructor
  · have h := (quota_window_iff_and_month_rollover_resets.1 [] []
      [LinkRequest.mk "a@b.c" (DateTime.mk 2025 9 20 10 0 0 0)]
      7 "a@b.c" (DateTime.mk 2025 9 21 8 30 0 0) 0 (by decide)).not
    simp only [Bool.not_eq_true] at h
    exact h.mpr (by decide)
  · exact quota_window_iff_and_month_rollover_resets.2 [] []
      [LinkRequest.mk "a@b.c" (DateTime.mk 2025 9 20 10 0 0 0)]
      7 "a@b.c" (DateTime.mk 2025 9 30 23 59 59 999999)
      (DateTime.mk 2025 10 1 0 0 0 0) 0 (by decide)
      (by intro r hr; simp at hr; rw [hr]; decide) (by decide)

end Moneying

namespace Moneying

/-- The only non-billing entry of `PLAN_INFO` is the lifetime plan. -/
theorem PLAN_INFO_nonbilling_is_lifetime (pt : String) (plan : PlanInfo)
    (hplan : PLAN_INFO pt = some plan) (hb : plan.billing = false) :
    pt = "profitguard_lifetime" := by
  unfold PLAN_INFO at hplan
  split_ifs at hplan with h1 h2 h3 h4 h5
  · injection hplan with h; subst h; simp at hb
  · injection hplan with h; subst h; simp at hb
  · injection hplan with h; subst h; simp at hb
  · injection hplan with h; subst h; simp at hb
  · exact beq_iff_eq.mp h5

theorem updateFirst_preserves {α : Type} (P : α → Prop) (p : α → Bool)
    (f : α → α) (hf : ∀ a, P a → P (f a)) :
    ∀ l : List α, (∀ a ∈ l, P a) → ∀ b ∈ updateFirst p f l, P b := by
  intro l
  induction l with
  | nil => intro _ b hb; simp [updateFirst] at hb
  | cons a rest ih =>
    intro hl b hb
    by_cases hp : p a
    · simp only [updateFirst, hp, if_true] at hb
      rcases List.mem_cons.mp hb with h | h
      · subst h; exact hf a (hl a (List.mem_cons_self _ _))
      · exact hl b (List.mem_cons_of_mem _ h)
    · simp only [updateFirst, hp, if_false] at hb
      rcases List.mem_cons.mp hb with h | h
      · subst h; exact hl b (List.mem_cons_self _ _)
      · exact ih (fun c hc => hl c (List.mem_cons_of_mem _ hc)) b h

/-- The creation invariant behind C7: a row with null `expires_at` is a
`profitguard_lifetime` row. -/
def LifetimeNullInv (s : Subscription) : Prop :=
  s.expires_at = none → s.plan_type = "profitguard_lifetime"

/-- `payment_success` establishes the invariant on the row it creates
(its creation site, src/app.py line 1221, writes `expires_at = None`
exactly when the plan does not bill, and only the lifetime plan does
not) and keeps it on all others. -/
theorem payment_success_preserves_lifetime_null
    (st : PayState) (su : Option Nat) (pk oid : String) (amt : Option Nat)
    (pt : String) (gw : Bool) (now : Time) (nsid npid : Nat)
    (r : PayResult) (st2 : PayState)
    (hinv : ∀ s ∈ st.subscriptions, LifetimeNullInv s)
    (h : payment_success st su pk oid amt pt gw now nsid npid = (r, st2)) :
    ∀ s ∈ st2.subscriptions, LifetimeNullInv s := by
  cases su with
  | none =>
    simp only [payment_success] at h
    injection h with h1 h2; subst h2; exact hinv
  | some uid =>
    cases amt with
    | none =>
      simp only [payment_success] at h
      injection h with h1 h2; subst h2; exact hinv
    | some a =>
      simp only [payment_success] at h
      by_cases hk : (pk == "" || oid == "") = true
      · rw [if_pos hk] at h; injection h with h1 h2; subst h2; exact hinv
      · rw [if_neg hk] at h
        cases hpl : PLAN_INFO pt with
        | none =>
          simp only [hpl] at h
          injection h with h1 h2; subst h2; exact hinv
        | some plan =>
          simp only [hpl] at h
          by_cases ha : a ≠ plan.price
          · rw [if_pos ha] at h; injection h with h1 h2; subst h2
            exact hinv
          · rw [if_neg ha] at h
            by_cases hg : (!gw) = true
            · rw [if_pos hg] at h; injection h with h1 h2; subst h2
              exact hinv
            · rw [if_neg hg] at h
              by_cases hd :
                  (st.payments.any fun p => p.order_id == oid) = true
              · rw [if_pos hd] at h; injection h with h1 h2; subst h2
                exact hinv
              · rw [if_neg hd] at h
                injection h with h1 h2
                subst h2
                intro s hs
                rcases List.mem_append.mp hs with hm | hm
                · exact hinv s hm
                · have hsingle := List.mem_singleton.mp hm
                  subst hsingle
                  intro hnone
                  simp only at hnone ⊢
                  by_cases hb : (!plan.billing) = true
                  · exact PLAN_INFO_nonbilling_is_lifetime pt plan hpl
                      (by simpa using hb)
                  · rw [if_neg hb] at hnone
                    exact Option.noConfusion hnone

/-- The referral bonus keeps the invariant: it maps a non-null expiry to
a non-null one and never touches `plan_type`. -/
theorem extend_referral_bonus_preserves_lifetime_null
    (subs : List Subscription) (rid : Nat) (now : Time)
    (hinv : ∀ s ∈ subs, LifetimeNullInv s) :
    ∀ s ∈ extend_referral_bonus subs rid now, LifetimeNullInv s := by
  unfold extend_referral_bonus
  cases pickLatest (referralCandidates subs rid now) with
  | none => exact hinv
  | some chosen =>
    refine updateFirst_preserves LifetimeNullInv _ _ ?_ subs hinv
    intro a ha hnone
    have : a.expires_at = none := by
      by_cases he : a.expires_at = none
      · exact he
      · exfalso
        rcases Option.ne_none_iff_exists.mp he with ⟨e, he2⟩
        rw [← he2] at hnone
        simp at hnone
    exact ha this

/-- Reward approval keeps the invariant: both its branches write a
non-null expiry onto the touched row and leave `plan_type` alone. -/
theorem admin_revenue_approve_preserves_lifetime_null
    (users : List User) (subs : List Subscription) (uid : Nat)
    (now : Time) (hinv : ∀ s ∈ subs, LifetimeNullInv s) :
    ∀ s ∈ admin_revenue_approve users subs uid now, LifetimeNullInv s := by
  cases hfu : users.find? (fun u => u.id == uid) with
  | none => simp only [admin_revenue_approve, hfu]; exact hinv
  | some user =>
    cases hfs : subs.find? (fun s => s.user_id == user.id &&
        s.status == "active") with
    | none => simp only [admin_revenue_approve, hfu, hfs]; exact hinv
    | some active_sub =>
      cases hexp : active_sub.expires_at with
      | some e =>
        simp only [admin_revenue_approve, hfu, hfs, hexp]
        refine updateFirst_preserves LifetimeNullInv _ _ ?_ subs hinv
        intro a ha hnone
        simp at hnone
      | none =>
        simp only [admin_revenue_approve, hfu, hfs, hexp]
        refine updateFirst_preserves LifetimeNullInv _ _ ?_ subs hinv
        intro a ha hnone
        simp at hnone

/-- Cancellation keeps the invariant: only `status` is mutated. -/
theorem api_subscription_cancel_preserves_lifetime_null
    (subs subs2 : List Subscription) (uid sid : Nat) (r : CancelResult)
    (hinv : ∀ s ∈ subs, LifetimeNullInv s)
    (h : api_subscription_cancel subs (some uid) (some sid) = (r, subs2)) :
    ∀ s ∈ subs2, LifetimeNullInv s := by
  cases hfind : subs.find? (fun s => s.id == sid && s.user_id == uid) with
  | none =>
    rw [api_subscription_cancel_eq_notFound subs uid sid hfind] at h
    injection h with h1 h2; subst h2; exact hinv
  | some s =>
    by_cases hl : s.plan_type = "profitguard_lifetime"
    · rw [api_subscription_cancel_eq_notCancellable subs uid sid s hfind
        hl] at h
      injection h with h1 h2; subst h2; exact hinv
    · rw [api_subscription_cancel_eq_success subs uid sid s hfind hl] at h
      injection h with h1 h2
      subst h2
      refine updateFirst_preserves LifetimeNullInv _ _ ?_ subs hinv
      intro a ha hnone
      exact ha hnone

end Moneying
